import Mathlib

/-!
Verification development for the book-recommendation chatbot backend.

The definitions below are a shallow embedding of the candidate ranking and
filtering pipeline of `api_server.py` together with its helpers
(`utils/filter.py`, `search/summary_tool.py`, `utils/image_generator.py`,
`auth/service.py`, `cli/chatbot.py`).  External collaborators (vector search,
translation, prompt sanitisation, the image-generation API, the relational
store) are passed in as function parameters; everything the repository itself
computes is reproduced here as executable Lean functions.

Machine reals: the single floating-point comparison in the source
(`len(overlap) / len(cand_kw) > 0.2` in `utils/filter.py`) is modelled with
exact rational arithmetic; `(0.2 : ℚ)` is exactly `1/5`.
-/

/-- Python's `w.startswith`-style check on character lists: `listStartsWith w s`
is `true` when `w` is an initial segment of `s`. -/
def listStartsWith : List Char → List Char → Bool
  | [], _ => true
  | _ :: _, [] => false
  | a :: as, b :: bs => a == b && listStartsWith as bs

/-- Occurrence test for Python's substring operator `w in s` over character
lists: `true` when `w` occurs contiguously inside `s`. -/
def strFind (w : List Char) : List Char → Bool
  | [] => listStartsWith w []
  | c :: t => listStartsWith w (c :: t) || strFind w t

/-- Python's `w in s` on strings (contiguous substring containment). -/
def strIn (w s : String) : Bool :=
  strFind w.data s.data

/-- Specification-side reading of substring containment: `s` contains `w`
contiguously.  Used to state claims; related to `strIn` by `strIn_iff`. -/
def containsStr (s w : String) : Prop :=
  ∃ pre post, s.data = pre ++ w.data ++ post

/-- Python `str` truthiness for optional string fields: `None` and `""` are
falsy, every other string is truthy. -/
def pyTruthy : Option String → Bool
  | none => false
  | some s => s != ""

/-- Whitespace characters removed by Python's `str.strip()`. -/
def pyIsSpace (c : Char) : Bool :=
  c == ' ' || c == '\t' || c == '\n' || c == '\r' || c == '\x0b' || c == '\x0c'

/-- Python's `str.strip()`: drop leading and trailing whitespace. -/
def pyStrip (s : String) : String :=
  String.mk (((s.data.dropWhile pyIsSpace).reverse.dropWhile pyIsSpace).reverse)

/-- Python's `str.lower()` over the ASCII range of the data: lower-case every
character (character-list map, so that concrete instances evaluate). -/
def pyLower (s : String) : String :=
  String.mk (s.data.map Char.toLower)

/-- The profile-to-banned-phrases table `EXCLUSION_KEYWORDS` of
`utils/filter.py` (lines 15-20), as an association list mirroring the Python
dict. -/
def EXCLUSION_KEYWORDS : List (String × List String) :=
  [("child", ["violence", "drugs", "sex", "death", "abuse"]),
   ("teen", ["graphic sex", "heavy violence"]),
   ("technical", ["fairy tale", "fantasy", "magic"]),
   ("adult", [])]

/-- `EXCLUSION_KEYWORDS.get(profile, set())`: the banned phrases for a profile
tag, defaulting to none for an absent (`None`) or unknown tag. -/
def exclusionFor (profile : Option String) : List String :=
  match profile with
  | none => []
  | some p => (EXCLUSION_KEYWORDS.lookup p).getD []

/-- `is_appropriate` of `utils/filter.py` (lines 48-62): `true` unless the
lower-cased summary contains some banned phrase of the profile. -/
def is_appropriate (summary : String) (profile : Option String) : Bool :=
  !((exclusionFor profile).any (fun word => strIn word (pyLower summary)))

/-- Python `role in EXCLUSION_KEYWORDS`: key membership in the profile table
(used by `cli/chatbot.py` line 97). -/
def profileKnown (role : String) : Bool :=
  (EXCLUSION_KEYWORDS.lookup role).isSome

/-- A Python word character (`\w` over the ASCII range relevant to the data):
letters, digits or underscore. -/
def isWordChar (c : Char) : Bool :=
  c.isAlphanum || c == '_'

/-- Maximal runs of word characters of a character list (the matches of the
regex `\w+`).  The accumulator holds the current run, reversed. -/
def wordRunsAux : List Char → List Char → List String
  | [], cur => if cur.isEmpty then [] else [String.mk cur.reverse]
  | c :: rest, cur =>
    if isWordChar c then wordRunsAux rest (c :: cur)
    else if cur.isEmpty then wordRunsAux rest []
    else String.mk cur.reverse :: wordRunsAux rest []

/-- `re.findall(r"\b\w{4,}\b", text)`: the maximal word-character runs of
length at least 4, in order of occurrence. -/
def findallWords (text : String) : List String :=
  (wordRunsAux text.data []).filter (fun t => decide (t.length ≥ 4))

/-- The fixed stopword list of the `keywords` helper inside
`is_similar_to_high_rated` (`utils/filter.py` lines 180-183). -/
def stopwords : List String :=
  ["the", "a", "an", "and", "of", "in", "on", "to", "for", "with", "by",
   "at", "from", "is", "it", "as", "that", "this", "was", "are", "be",
   "or", "but", "if", "not", "into", "their", "his", "her", "its", "they",
   "them", "he", "she", "you", "we", "our", "your", "i"]

/-- `keywords(text)` of `utils/filter.py` line 184:
`set(w for w in re.findall(r"\b\w{4,}\b", text) if w not in stopwords)`.
The Python set is modelled as a duplicate-free list; only its cardinality and
membership are ever used. -/
def keywords (text : String) : List String :=
  ((findallWords text).filter (fun w => decide (w ∉ stopwords))).dedup

/-- The theme-overlap test of `is_similar_to_high_rated`
(`utils/filter.py` lines 177-192), for one candidate/high-rated summary pair
(both already lower-cased by the caller).  The float comparison
`len(overlap) / len(cand_kw) > 0.2` is modelled exactly over `ℚ`. -/
def themeOverlapSimilar (candidate_summary b_summary : String) : Bool :=
  if candidate_summary != "" && b_summary != "" then
    let cand_kw := keywords candidate_summary
    let b_kw := keywords b_summary
    if !cand_kw.isEmpty && !b_kw.isEmpty then
      let overlap := cand_kw.filter (fun w => decide (w ∈ b_kw))
      decide (overlap.length ≥ 5) ||
        (decide (cand_kw.length > 0) &&
          decide ((overlap.length : ℚ) / (cand_kw.length : ℚ) > (0.2 : ℚ)))
    else false
  else false

/-- Book metadata as stored in the vector collection (`BookMetadata`): the
title key plus the optional fields read by the pipeline.  An `Option` field
models a possibly absent dict key. -/
structure Meta where
  title : String
  genre : Option String
  author : Option String
  summary : Option String
  image_url : Option String
deriving DecidableEq

/-- Metadata record with every optional field absent. -/
def Meta.only (title : String) : Meta :=
  ⟨title, none, none, none, none⟩

/-- A high-rated history entry as built by `recommend`
(`api_server.py` lines 152-157). -/
structure HighRated where
  title : String
  genre : Option String
  author : Option String
  summary : Option String
deriving DecidableEq

/-- `x.get(field, "").lower() if x.get(field) else ""`: the lower-cased field
when present and truthy, `""` otherwise (`utils/filter.py` lines 157-159 and
168-170). -/
def truthyLower (field : Option String) : String :=
  match field with
  | some s => if s != "" then pyLower s else ""
  | none => ""

/-- `is_similar_to_high_rated` of `utils/filter.py` (lines 151-193).  The
summary-lookup fallback collaborator is passed as `lookup`; `Except.error`
models it raising (caught, summary treated as empty).  The three tests
(genre, author, theme overlap) short-circuit over the history exactly as the
source's early returns do. -/
def is_similar_to_high_rated (meta : Meta) (lookup : String → Except Unit String)
    (high_rated_books : List HighRated) : Bool :=
  let candidate_genre := truthyLower meta.genre
  let candidate_author := truthyLower meta.author
  let resolved := truthyLower meta.summary
  let candidate_summary :=
    if resolved == "" && meta.title != "" then
      match lookup meta.title with
      | Except.ok s => pyLower s
      | Except.error _ => ""
    else resolved
  high_rated_books.any (fun b =>
    let b_genre := truthyLower b.genre
    let b_author := truthyLower b.author
    let b_summary := truthyLower b.summary
    (candidate_genre != "" && b_genre != "" && candidate_genre == b_genre) ||
    (candidate_author != "" && b_author != "" && candidate_author == b_author) ||
    themeOverlapSimilar candidate_summary b_summary)

/-- A book entry of a list-format batch file (`data/batches/*.json`, list of
dicts); `title` and `summary` keys may each be absent. -/
structure BookEntry where
  title : Option String
  summary : Option String
deriving DecidableEq

/-- One parsed JSON batch file handled by `get_summary_by_title`
(`search/summary_tool.py`): either the old dict format (title-to-summary
mapping, modelled as an association list) or the list-of-dicts format. -/
inductive BatchFile where
  | dictFmt (entries : List (String × String))
  | listFmt (books : List BookEntry)
deriving DecidableEq

/-- `get_summary_by_title` of `search/summary_tool.py` (lines 8-33): scan the
batch files in order; a dict-format file answers when it has the title as a
key; a list-format file answers with the first entry whose `title` equals the
query, returning the sentinel if that entry lacks a summary; otherwise the
sentinel `"Summary not found."` is returned. -/
def get_summary_by_title (title : String) : List BatchFile → String
  | [] => "Summary not found."
  | BatchFile.dictFmt entries :: rest =>
    match entries.lookup title with
    | some s => s
    | none => get_summary_by_title title rest
  | BatchFile.listFmt books :: rest =>
    match books.find? (fun book => book.title == some title) with
    | some book => book.summary.getD "Summary not found."
    | none => get_summary_by_title title rest

/-- A read-book record as the `/recommend` handler consumes it: a dict with a
mandatory `title` and optional further keys (`api_server.py` lines 149-157).
Records produced by `auth/service.py` carry only title, rating and date. -/
structure ReadRecord where
  title : String
  rating : Option Int
  read_date : Option String
  genre : Option String
  author : Option String
  summary : Option String
deriving DecidableEq

/-- A service-layer row of `get_user_read_books` (`auth/service.py`
lines 50-60): title, rating and formatted read date. -/
def ReadRecord.ofRow (title : String) (rating : Option Int)
    (read_date : Option String) : ReadRecord :=
  ⟨title, rating, read_date, none, none, none⟩

/-- Python exception classes distinguished by the handlers under study. -/
inductive PyExc where
  | keyError
  | typeError
  | valueError
  | connectionError
  | otherError
deriving DecidableEq

/-- The exception classes suppressed by `except (KeyError, TypeError,
ValueError)` in `recommend` (`api_server.py` line 158). -/
def isNarrowExc : PyExc → Bool
  | PyExc.keyError => true
  | PyExc.typeError => true
  | PyExc.valueError => true
  | _ => false

/-- A failure of the underlying Oracle access inside
`auth/service.py`'s `get_user_read_books`. -/
inductive DbFailure where
  | connectivity
  | queryError
deriving DecidableEq

/-- A raw row of the user_read_books join. -/
structure DbRow where
  title : String
  rating : Option Int
  read_date : Option String
deriving DecidableEq

/-- `get_user_read_books` of `auth/service.py` (lines 40-67): on success, the
rows projected to `{title, rating, read_date}` dicts; on ANY exception
(`except Exception`), including a connectivity failure, it prints and returns
the empty list — nothing propagates. -/
def get_user_read_books (db : Except DbFailure (List DbRow)) : List ReadRecord :=
  match db with
  | Except.ok rows => rows.map (fun r => ReadRecord.ofRow r.title r.rating r.read_date)
  | Except.error _ => []

/-- The loop of `api_server.py` lines 149-157: collect every title into
`read_titles` and project the records with a truthy rating of at least 4 into
`high_rated_books`.  The Python set of titles is modelled as a list used only
for membership. -/
def buildHistory (user_books : List ReadRecord) : List String × List HighRated :=
  (user_books.map (fun b => b.title),
   (user_books.filter (fun b =>
       match b.rating with
       | some r => decide (r ≠ 0) && decide (r ≥ 4)
       | none => false)).map
     (fun b => ⟨b.title, b.genre, b.author, b.summary⟩))

/-- The history-resolution step of `recommend` (`api_server.py` lines
139-159): `read_titles`/`high_rated_books` start empty, the lookup result is
folded in, and only KeyError/TypeError/ValueError are suppressed
(`except ... : pass`); any other exception escapes the handler. -/
def resolveHistory (outcome : Except PyExc (List ReadRecord)) :
    Except PyExc (List String × List HighRated) :=
  match outcome with
  | Except.ok user_books => Except.ok (buildHistory user_books)
  | Except.error e => if isNarrowExc e then Except.ok ([], []) else Except.error e

/-- The sort key of `api_server.py` lines 169-170 for an indexed candidate:
`(not is_similar_to_high_rated(meta, high_rated_books), idx)`, with Python's
`False < True` rendered as `0 < 1`. -/
def mkSortKey (sim : α → Bool) (idx : α → Nat) (a : α) : Nat × Nat :=
  ((if sim a then 0 else 1), idx a)

/-- Ascending lexicographic comparison of sort keys, as Python's tuple
comparison performs it. -/
def keyLE (a b : Nat × Nat) : Bool :=
  decide (a.1 < b.1) || (a.1 == b.1 && decide (a.2 ≤ b.2))

/-- Python's stable `sorted(candidates, key=mkSortKey sim idx)`, modelled with
insertion sort (stable; the keys are moreover pairwise distinct here because
they carry the original index). -/
def pySortByKey (sim : α → Bool) (idx : α → Nat) (l : List α) : List α :=
  List.insertionSort (fun a b => keyLE (mkSortKey sim idx a) (mkSortKey sim idx b) = true) l

/-- `api_server.py` lines 164-168: enumerate the search results and drop every
candidate whose title is in `read_titles`. -/
def candidatesOf (metadatas : List Meta) (read_titles : List String) :
    List (Nat × Meta) :=
  metadatas.enum.filter (fun p => decide (p.2.title ∉ read_titles))

/-- The history-aware candidate filter of `recommend` (`api_server.py` lines
164-170): exclusion of read titles followed by the stable key sort. -/
def historyFilter (metadatas : List Meta) (read_titles : List String)
    (lookup : String → Except Unit String) (high_rated_books : List HighRated) :
    List (Nat × Meta) :=
  pySortByKey (fun p => is_similar_to_high_rated p.2 lookup high_rated_books)
    Prod.fst (candidatesOf metadatas read_titles)

/-- The per-candidate validity test of `api_server.py` lines 173-175: the
resolved summary is truthy, strips to something truthy, is not the sentinel,
and passes the appropriateness filter for the request's role. -/
def summaryPasses (batches : List BatchFile) (role : Option String) (meta : Meta) :
    Bool :=
  let summary := get_summary_by_title meta.title batches
  summary != "" && pyStrip summary != "" && summary != "Summary not found." &&
    is_appropriate summary role

/-- The profile-specific style suffix appended to the image prompt
(`api_server.py` lines 195-200). -/
def styleSuffix (role : Option String) : String :=
  match role with
  | some "child" => " (colorful, cartoonish, friendly, for children, illustration style)"
  | some "teen" => " (dynamic, modern, appealing to teenagers, graphic novel style)"
  | some "technical" => " (clean, schematic, technical illustration, informative)"
  | _ => ""

/-- Result of the image-resolution step for the selected candidate: the URL
put in the response, the number of image-generation calls made, and the
`collection.update` write-back (id and new metadata), if any. -/
structure ImageStepResult where
  image_url : Option String
  genCalls : Nat
  writeBack : Option (String × Meta)
deriving DecidableEq

/-- The image-resolution step of `recommend` (`api_server.py` lines 176-206):
reuse a truthy cached `image_url`; otherwise translate to English when the
request language is Romanian, sanitise, append the style suffix, call the
generator once, and write the URL back into the metadata only when it is
truthy.  `translate`, `sanitize` and `gen` are the external collaborators. -/
def resolveImage (meta : Meta) (role : Option String) (language : String)
    (title summary : String) (translate : String → String)
    (sanitize : String → String) (gen : String → String → Option String) :
    ImageStepResult :=
  let image_url := meta.image_url
  if pyTruthy image_url then ⟨image_url, 0, none⟩
  else
    let title_en := if language == "romanian" then translate title else title
    let summary_en := if language == "romanian" then translate summary else summary
    let image_prompt := sanitize summary_en ++ styleSuffix role
    let new_url := gen title_en image_prompt
    ⟨new_url, 1,
      if pyTruthy new_url then
        some (title, ⟨meta.title, meta.genre, meta.author, meta.summary, new_url⟩)
      else none⟩

/-- The metadata record for the same title after an image step: the written
back record if `collection.update` ran, the unchanged record otherwise. -/
def metaAfterRequest (meta : Meta) (step : ImageStepResult) : Meta :=
  match step.writeBack with
  | some (_, m) => m
  | none => meta

/-- The two possible response shapes of the candidate loop: the selected book
(`{"title", "summary", "image_url"}`) or the structured
`{"error": "No suitable book found."}` payload. -/
inductive RecResult where
  | book (title summary : String) (image_url : Option String)
  | noSuitable
deriving DecidableEq

/-- The candidate loop of `recommend` (`api_server.py` lines 171-208): walk
the filtered candidates in order, return the first that passes the summary
and appropriateness checks together with its resolved image and the
write-backs performed, or the structured no-suitable-book payload. -/
def selectLoop (cands : List (Nat × Meta)) (batches : List BatchFile)
    (role : Option String) (language : String) (translate sanitize : String → String)
    (gen : String → String → Option String) : RecResult × List (String × Meta) :=
  match cands with
  | [] => (RecResult.noSuitable, [])
  | (_, meta) :: rest =>
    if summaryPasses batches role meta then
      let title := meta.title
      let summary := get_summary_by_title title batches
      let step := resolveImage meta role language title summary translate sanitize gen
      (RecResult.book title summary step.image_url, step.writeBack.toList)
    else selectLoop rest batches role language translate sanitize gen

/-- The `/recommend` handler body after token verification (`api_server.py`
lines 135-208): resolve history (narrow exceptions degrade, others escape),
fall back to the role as search text when the query is falsy, run the search,
apply the history-aware filter, and run the candidate loop. -/
def recommend (query role : Option String) (language : String)
    (historyOutcome : Except PyExc (List ReadRecord))
    (search : Option String → List Meta) (batches : List BatchFile)
    (translate sanitize : String → String)
    (gen : String → String → Option String) :
    Except PyExc (RecResult × List (String × Meta)) :=
  match resolveHistory historyOutcome with
  | Except.error e => Except.error e
  | Except.ok (read_titles, high_rated_books) =>
    let search_query := if pyTruthy query then query else role
    let metadatas := search search_query
    let candidates := historyFilter metadatas read_titles
      (fun t => Except.ok (get_summary_by_title t batches)) high_rated_books
    Except.ok (selectLoop candidates batches role language translate sanitize gen)

/-- `generate_image_from_summary` of `utils/image_generator.py` (lines 18-30)
as a function of the underlying OpenAI call's outcome: the returned URL on
success, `None` on any exception (caught and logged). -/
def generate_image_from_summary (apiResult : Except PyExc String) : Option String :=
  match apiResult with
  | Except.ok url => some url
  | Except.error _ => none

/-- The clarification prompt of `cli/chatbot.py` lines 98-100, localized to
the session language. -/
def clarifyPromptFor (language : String) : String :=
  if language == "romanian" then
    "Pentru cine este cartea? (child, teen, adult, technical): "
  else "Who is the book for? (child, teen, adult, technical): "

/-- Outcome of the CLI role-resolution step: whether the clarification
question was asked, with which prompt, and the final role. -/
structure RoleResolution where
  asked : Bool
  prompt : String
  role : String
deriving DecidableEq

/-- The role-resolution step of `cli/chatbot.py` lines 96-103: if the inferred
profile is not a key of `EXCLUSION_KEYWORDS`, ask the localized clarification
question; if the (stripped, lower-cased) answer is still unknown, fall back to
`"adult"`. -/
def cliResolveRole (inferred : String) (language : String) (answer : String) :
    RoleResolution :=
  if profileKnown inferred then ⟨false, "", inferred⟩
  else
    let clarify_prompt := clarifyPromptFor language
    let role := pyLower (pyStrip answer)
    if profileKnown role then ⟨true, clarify_prompt, role⟩
    else ⟨true, clarify_prompt, "adult"⟩

/-- The response payload of `/search_titles` (`api_server.py` line 347). -/
structure SearchTitlesResult where
  titles : List String
  total : Nat
  offset : Nat
  limit : Nat
deriving DecidableEq

/-- The title-collection loop of `search_titles` (`api_server.py` lines
338-341): keep `doc['title']` for every metadata record that is truthy and has
a `title` key.  A record is modelled as `Option (Option String)`: outer
`none` for a falsy record, inner `none` for a missing title key. -/
def collect_titles : List (Option (Option String)) → List String
  | [] => []
  | some (some t) :: rest => t :: collect_titles rest
  | _ :: rest => collect_titles rest

/-- `search_titles` of `api_server.py` (lines 335-349) on the happy path:
case-insensitive substring filter, ascending sort, `total` from the filtered
list, and the slice `[offset : offset + limit]` (non-negative parameters, as
FastAPI's defaults and the claims assume). -/
def search_titles (docs : List (Option (Option String))) (q : String)
    (limit offset : Nat) : SearchTitlesResult :=
  let all_titles := collect_titles docs
  let q_lower := pyLower q
  let filtered := all_titles.filter (fun t => strIn q_lower (pyLower t))
  let sorted_titles := List.insertionSort (fun a b => a ≤ b) filtered
  let total := sorted_titles.length
  let paged := (sorted_titles.drop offset).take limit
  ⟨paged, total, offset, limit⟩

/-- Concrete batch store for the summary-sentinel scenario: book `X` carries
the sentinel as its stored summary text, book `Y` a real summary. -/
def scenarioBatches : List BatchFile :=
  [BatchFile.listFmt
    [⟨some "X", some "Summary not found."⟩, ⟨some "Y", some "A tale of courage."⟩]]

/-- Concrete batch store with a single well-summarised book. -/
def duneBatches : List BatchFile :=
  [BatchFile.listFmt [⟨some "Dune", some "A desert epic."⟩]]

theorem listStartsWith_iff (w s : List Char) :
    listStartsWith w s = true ↔ ∃ post, s = w ++ post := by
  induction w generalizing s with
  | nil => simp [listStartsWith]
  | cons a as ih =>
    cases s with
    | nil =>
      simp [listStartsWith]
    | cons b bs =>
      simp only [listStartsWith, Bool.and_eq_true, beq_iff_eq, ih]
      constructor
      · rintro ⟨h1, post, h2⟩
        exact ⟨post, by simp [List.cons_append, ← h1, h2]⟩
      · rintro ⟨post, h⟩
        simp only [List.cons_append] at h
        obtain ⟨rfl, rfl⟩ := List.cons.inj h
        exact ⟨rfl, post, rfl⟩

theorem strFind_iff (w s : List Char) :
    strFind w s = true ↔ ∃ pre post, s = pre ++ w ++ post := by
  induction s with
  | nil =>
    simp only [strFind, listStartsWith_iff]
    constructor
    · rintro ⟨post, h⟩
      exact ⟨[], post, by simpa using h⟩
    · rintro ⟨pre, post, h⟩
      have h' : pre ++ (w ++ post) = [] := by
        simpa [List.append_assoc] using h.symm
      simp only [List.append_eq_nil] at h'
      exact ⟨[], by simp [h'.2.1]⟩
  | cons c t ih =>
    simp only [strFind, Bool.or_eq_true, listStartsWith_iff, ih]
    constructor
    · rintro (⟨post, h⟩ | ⟨pre, post, h⟩)
      · exact ⟨[], post, by simpa using h⟩
      · exact ⟨c :: pre, post, by simp [h]⟩
    · rintro ⟨pre, post, h⟩
      cases pre with
      | nil => exact Or.inl ⟨post, by simpa using h⟩
      | cons p ps =>
        right
        simp only [List.cons_append] at h
        obtain ⟨rfl, rfl⟩ := List.cons.inj h
        exact ⟨ps, post, rfl⟩

theorem strIn_iff (w s : String) : strIn w s = true ↔ containsStr s w :=
  strFind_iff w.data s.data

/-- C3: `is_appropriate(s, p)` returns `false` iff the lower-cased summary
contains (as a contiguous substring) at least one banned phrase of `p`'s
fixed table; for `adult` and for any tag outside the four known profiles it
always returns `true`. -/
theorem c3_is_appropriate_characterisation (s : String) (p : Option String) :
    (is_appropriate s p = false ↔
      ∃ w ∈ exclusionFor p, containsStr (pyLower s) w) ∧
    (is_appropriate s (some "adult") = true) ∧
    (p ∉ ([some "child", some "teen", some "technical", some "adult"] :
        List (Option String)) → is_appropriate s p = true) := by
  refine ⟨?_, ?_, ?_⟩
  · simp only [is_appropriate, Bool.not_eq_false', List.any_eq_true, strIn_iff]
  · rfl
  · intro hp
    cases p with
    | none => rfl
    | some tag =>
      simp only [List.mem_cons, List.not_mem_nil, or_false, not_or,
        Option.some.injEq] at hp
      obtain ⟨h1, h2, h3, h4⟩ := hp
      have e1 : (tag == "child") = false := beq_eq_false_iff_ne.mpr h1
      have e2 : (tag == "teen") = false := beq_eq_false_iff_ne.mpr h2
      have e3 : (tag == "technical") = false := beq_eq_false_iff_ne.mpr h3
      have e4 : (tag == "adult") = false := beq_eq_false_iff_ne.mpr h4
      simp [is_appropriate, exclusionFor, EXCLUSION_KEYWORDS, List.lookup,
        e1, e2, e3, e4]

/-- Witness for C3 at concrete inputs: a summary full of banned phrases is
appropriate for the `adult` profile, and any summary is appropriate for the
unknown profile tag `elder`. -/
theorem c3_witness :
    is_appropriate "A story involving violence and abuse" (some "adult") = true ∧
    is_appropriate "A story involving violence and abuse" (some "elder") = true :=
  ⟨(c3_is_appropriate_characterisation "A story involving violence and abuse"
      (some "adult")).2.1,
   (c3_is_appropriate_characterisation "A story involving violence and abuse"
      (some "elder")).2.2 (by decide)⟩

/-- C5: with an empty high-rated history the similarity scorer answers
`false`, whatever the candidate metadata and the summary-lookup collaborator
are. -/
theorem c5_empty_history_not_similar (meta : Meta)
    (lookup : String → Except Unit String) :
    is_similar_to_high_rated meta lookup [] = false := rfl

/-- C4: the theme-overlap test is similar exactly when both keyword sets
(length-4-or-more word tokens minus stopwords) are non-empty and either the
intersection has at least 5 elements or it exceeds a fifth of the candidate
keyword set; an empty keyword set on either side never matches.  The source's
ratio test `|overlap| / |cand_kw| > 0.2` is equivalent to
`|cand_kw| < 5 * |overlap|`. -/
theorem c4_theme_overlap_characterisation (cs bs : String) :
    themeOverlapSimilar cs bs = true ↔
      (keywords cs ≠ [] ∧ keywords bs ≠ [] ∧
        (5 ≤ ((keywords cs).filter (fun w => decide (w ∈ keywords bs))).length ∨
         (keywords cs).length <
           5 * ((keywords cs).filter (fun w => decide (w ∈ keywords bs))).length)) := by
  by_cases hcs : cs = ""
  · subst hcs
    simp [themeOverlapSimilar, show keywords "" = [] from rfl]
  by_cases hbs : bs = ""
  · subst hbs
    simp [themeOverlapSimilar, show keywords "" = [] from rfl]
  have hguard : (cs != "" && bs != "") = true := by
    simp [bne_iff_ne, hcs, hbs]
  by_cases hK : keywords cs = []
  · simp [themeOverlapSimilar, hguard, hK]
  by_cases hB : keywords bs = []
  · simp [themeOverlapSimilar, hguard, hB]
  have hcond : (!(keywords cs).isEmpty && !(keywords bs).isEmpty) = true := by
    simp [List.isEmpty_iff, hK, hB]
  have hn : 0 < (keywords cs).length := List.length_pos.mpr hK
  have hratio :
      ((0.2 : ℚ) <
          (((keywords cs).filter (fun w => decide (w ∈ keywords bs))).length : ℚ) /
            ((keywords cs).length : ℚ)) ↔
        ((keywords cs).length <
          5 * ((keywords cs).filter (fun w => decide (w ∈ keywords bs))).length) := by
    rw [show (0.2 : ℚ) = 1 / 5 by norm_num,
      div_lt_div_iff (by norm_num) (by exact_mod_cast hn), one_mul, mul_comm]
    exact_mod_cast Iff.rfl
  simp only [themeOverlapSimilar, hguard, if_true, hcond, Bool.or_eq_true,
    Bool.and_eq_true, decide_eq_true_eq, gt_iff_lt]
  rw [hratio]
  simp [hK, hB, hn]

theorem fst_le_of_mem_enumFrom {α : Type} (n : Nat) (l : List α) :
    ∀ p ∈ List.enumFrom n l, n ≤ p.1 := by
  induction l generalizing n with
  | nil => intro p hp; simp [List.enumFrom] at hp
  | cons x xs ih =>
    intro p hp
    rcases List.mem_cons.mp hp with h | h
    · subst h; exact le_refl n
    · exact Nat.le_of_succ_le (ih (n + 1) p h)

theorem pairwise_fst_lt_enumFrom {α : Type} (n : Nat) (l : List α) :
    (List.enumFrom n l).Pairwise (fun a b => a.1 < b.1) := by
  induction l generalizing n with
  | nil => simp [List.enumFrom]
  | cons x xs ih =>
    refine List.Pairwise.cons ?_ (ih (n + 1))
    intro b hb
    exact Nat.lt_of_succ_le (fst_le_of_mem_enumFrom (n + 1) xs b hb)

theorem pairwise_fst_lt_enum {α : Type} (l : List α) :
    l.enum.Pairwise (fun a b => a.1 < b.1) :=
  pairwise_fst_lt_enumFrom 0 l

theorem orderedInsert_skip {α : Type} (r : α → α → Prop) [DecidableRel r] (x : α)
    (A B : List α) (h : ∀ y ∈ A, ¬ r x y) :
    List.orderedInsert r x (A ++ B) = A ++ List.orderedInsert r x B := by
  induction A with
  | nil => rfl
  | cons a A ih =>
    have hxa : ¬ r x a := h a (List.mem_cons_self a A)
    simp only [List.cons_append, List.orderedInsert, if_neg hxa]
    rw [show A.append B = A ++ B from rfl,
      ih (fun y hy => h y (List.mem_cons_of_mem a hy))]

theorem pySortByKey_partition {α : Type} (sim : α → Bool) (idx : α → Nat)
    (l : List α) (h : l.Pairwise (fun a b => idx a < idx b)) :
    pySortByKey sim idx l = l.filter sim ++ l.filter (fun p => !(sim p)) := by
  induction l with
  | nil => rfl
  | cons x l ih =>
    rw [List.pairwise_cons] at h
    obtain ⟨hx, hl⟩ := h
    have ih' := ih hl
    simp only [pySortByKey, List.insertionSort] at ih' ⊢
    rw [ih']
    cases hs : sim x with
    | true =>
      have hr : ∀ y ∈ l.filter sim ++ l.filter (fun p => !(sim p)),
          keyLE (mkSortKey sim idx x) (mkSortKey sim idx y) = true := by
        intro y hy
        have hyl : y ∈ l := by
          rcases List.mem_append.mp hy with h1 | h1
          exacts [(List.mem_filter.mp h1).1, (List.mem_filter.mp h1).1]
        have hlt := hx y hyl
        cases hsy : sim y with
        | true => simp [keyLE, mkSortKey, hs, hsy]; omega
        | false => simp [keyLE, mkSortKey, hs, hsy]
      cases hAB : (l.filter sim ++ l.filter fun p => !(sim p)) with
      | nil =>
        obtain ⟨hA, hB⟩ := List.append_eq_nil.mp hAB
        simp [List.orderedInsert, List.filter_cons, hs, hA, hB]
      | cons y ys =>
        have hrxy := hr y (by rw [hAB]; exact List.mem_cons_self y ys)
        simp only [List.orderedInsert, if_pos hrxy]
        simp [List.filter_cons, hs, hAB]
    | false =>
      have hskip : ∀ y ∈ l.filter sim,
          ¬ (keyLE (mkSortKey sim idx x) (mkSortKey sim idx y) = true) := by
        intro y hy
        have hsy := (List.mem_filter.mp hy).2
        simp [keyLE, mkSortKey, hs, hsy]
      rw [orderedInsert_skip _ x _ _ hskip]
      cases hB : l.filter (fun p => !(sim p)) with
      | nil =>
        simp [List.orderedInsert, List.filter_cons, hs, hB]
      | cons z zs =>
        have hz : z ∈ l.filter (fun p => !(sim p)) := by
          rw [hB]; exact List.mem_cons_self z zs
        have hzl : z ∈ l := (List.mem_filter.mp hz).1
        have hzs : sim z = false := by
          have := (List.mem_filter.mp hz).2
          simpa using this
        have hlt := hx z hzl
        have hrxz : keyLE (mkSortKey sim idx x) (mkSortKey sim idx z) = true := by
          simp [keyLE, mkSortKey, hs, hzs]; omega
        simp only [List.orderedInsert, if_pos hrxz]
        simp [List.filter_cons, hs, hB]

/-- C2: the history-aware filter equals a stable partition: the enumerated
candidates whose title is not among the read titles, with every
history-similar candidate before every non-similar one and the original
search order preserved inside each group. -/
theorem c2_history_filter_stable_partition (metadatas : List Meta)
    (read_titles : List String) (lookup : String → Except Unit String)
    (high_rated_books : List HighRated) :
    historyFilter metadatas read_titles lookup high_rated_books =
      (candidatesOf metadatas read_titles).filter
        (fun p => is_similar_to_high_rated p.2 lookup high_rated_books) ++
      (candidatesOf metadatas read_titles).filter
        (fun p => !(is_similar_to_high_rated p.2 lookup high_rated_books)) := by
  simp only [historyFilter]
  refine pySortByKey_partition _ _ _ ?_
  exact (pairwise_fst_lt_enum metadatas).sublist (List.filter_sublist _)

theorem selectLoop_noSuitable_iff (batches : List BatchFile) (role : Option String)
    (language : String) (translate sanitize : String → String)
    (gen : String → String → Option String) :
    ∀ cands : List (Nat × Meta),
      ((selectLoop cands batches role language translate sanitize gen).1 =
          RecResult.noSuitable ↔
        ∀ c ∈ cands, summaryPasses batches role c.2 = false)
  | [] => by simp [selectLoop]
  | (i, m) :: rest => by
    have ih := selectLoop_noSuitable_iff batches role language translate sanitize
      gen rest
    cases hp : summaryPasses batches role m with
    | true =>
      simp only [selectLoop, hp, if_pos]
      constructor
      · intro hfalse
        exact absurd hfalse (by simp)
      · intro hall
        have := hall (i, m) (List.mem_cons_self _ _)
        simp [hp] at this
    | false =>
      have hneg : ¬ (summaryPasses batches role m = true) := by simp [hp]
      simp only [selectLoop, if_neg hneg]
      rw [ih, List.forall_mem_cons]
      simp [hp]

theorem selectLoop_first_eq (batches : List BatchFile) (role : Option String)
    (language : String) (translate sanitize : String → String)
    (gen : String → String → Option String) :
    ∀ (cands : List (Nat × Meta)) (n : Nat) (h : n < cands.length),
      summaryPasses batches role (cands.get ⟨n, h⟩).2 = true →
      (∀ (k : Nat) (hk : k < n),
          summaryPasses batches role (cands.get ⟨k, lt_trans hk h⟩).2 = false) →
      (selectLoop cands batches role language translate sanitize gen).1 =
        RecResult.book (cands.get ⟨n, h⟩).2.title
          (get_summary_by_title (cands.get ⟨n, h⟩).2.title batches)
          (resolveImage (cands.get ⟨n, h⟩).2 role language
            (cands.get ⟨n, h⟩).2.title
            (get_summary_by_title (cands.get ⟨n, h⟩).2.title batches)
            translate sanitize gen).image_url
  | [], n, h => absurd h (Nat.not_lt_zero n)
  | (i, m) :: rest, 0, h => fun hpass _ => by
    have hp : summaryPasses batches role m = true := hpass
    simp only [selectLoop, if_pos hp]
    rfl
  | (i, m) :: rest, n + 1, h => fun hpass hprev => by
    have h0 : summaryPasses batches role m = false := hprev 0 (Nat.succ_pos n)
    have hneg : ¬ (summaryPasses batches role m = true) := by simp [h0]
    have ih := selectLoop_first_eq batches role language translate sanitize gen rest
      n (Nat.lt_of_succ_lt_succ h) hpass
      (fun k hk => hprev (k + 1) (Nat.succ_lt_succ hk))
    simp only [selectLoop, if_neg hneg, List.get_cons_succ]
    exact ih

/-- C1: the candidate loop examines the filtered candidates in order; the
validity test is exactly "resolved summary non-empty, not whitespace-only,
not the sentinel, and appropriate for the request's role"; the selected book
is the first candidate passing it (all earlier candidates having failed),
and exhaustion yields the structured no-suitable-book result (the loop is a
total function — no exception). -/
theorem c1_selector_first_valid_candidate (cands : List (Nat × Meta))
    (batches : List BatchFile) (role : Option String) (language : String)
    (translate sanitize : String → String)
    (gen : String → String → Option String) :
    (∀ m : Meta, summaryPasses batches role m = true ↔
        (get_summary_by_title m.title batches ≠ "" ∧
         pyStrip (get_summary_by_title m.title batches) ≠ "" ∧
         get_summary_by_title m.title batches ≠ "Summary not found." ∧
         is_appropriate (get_summary_by_title m.title batches) role = true)) ∧
    ((selectLoop cands batches role language translate sanitize gen).1 =
        RecResult.noSuitable ↔
      ∀ c ∈ cands, summaryPasses batches role c.2 = false) ∧
    (∀ (n : Nat) (h : n < cands.length),
      summaryPasses batches role (cands.get ⟨n, h⟩).2 = true →
      (∀ (k : Nat) (hk : k < n),
          summaryPasses batches role (cands.get ⟨k, lt_trans hk h⟩).2 = false) →
      (selectLoop cands batches role language translate sanitize gen).1 =
        RecResult.book (cands.get ⟨n, h⟩).2.title
          (get_summary_by_title (cands.get ⟨n, h⟩).2.title batches)
          (resolveImage (cands.get ⟨n, h⟩).2 role language
            (cands.get ⟨n, h⟩).2.title
            (get_summary_by_title (cands.get ⟨n, h⟩).2.title batches)
            translate sanitize gen).image_url) := by
  refine ⟨?_, selectLoop_noSuitable_iff batches role language translate sanitize
    gen cands, selectLoop_first_eq batches role language translate sanitize gen cands⟩
  intro m
  simp [summaryPasses, Bool.and_eq_true, bne_iff_ne, and_assoc]

/-- Witness for C1 on the spec's summary-sentinel scenario: with candidate `X`
stored under the sentinel summary and candidate `Y` under a real one, the
selector (profile `adult`) returns `Y`. -/
theorem c1_witness :
    (selectLoop [(0, Meta.only "X"), (1, Meta.only "Y")] scenarioBatches
        (some "adult") "english" id id (fun _ _ => none)).1 =
      RecResult.book "Y" "A tale of courage." none := by
  have h := (c1_selector_first_valid_candidate
      [(0, Meta.only "X"), (1, Meta.only "Y")] scenarioBatches (some "adult")
      "english" id id (fun _ _ => none)).2.2 1 (by decide) (by decide) ?prev
  case prev =>
    intro k hk
    have hk0 : k = 0 := Nat.lt_one_iff.mp hk
    subst hk0
    show summaryPasses scenarioBatches (some "adult") (Meta.only "X") = false
    decide
  exact h.trans (by decide)

/-- Counterexample to C6: with an empty query and an absent role, the API
recommendation handler does not return a clarification request — it proceeds
(using the absent role as search text) and returns a book.  The handler's
result shape, taken from the source, has no clarification form at all, and
`infer_reader_profile` is never consulted by `recommend`. -/
theorem c6_counterexample :
    recommend (some "") none "english" (Except.ok [])
        (fun _ => [Meta.only "Dune"]) duneBatches id id (fun _ _ => none) =
      Except.ok (RecResult.book "Dune" "A desert epic." none, []) := rfl

/-- C6 (amended): clarification exists only in the CLI.  When the inferred
profile is not a known profile key, `cli/chatbot.py` asks the
language-localized "who is the book for" question — regardless of whether the
query was empty — and falls back to `adult` exactly when the stripped,
lower-cased answer is again unknown; a known inferred profile is kept with no
question asked. -/
theorem c6_cli_clarification (inferred language answer : String) :
    (profileKnown inferred = true →
      cliResolveRole inferred language answer = ⟨false, "", inferred⟩) ∧
    (profileKnown inferred = false →
      (cliResolveRole inferred language answer).asked = true ∧
      (cliResolveRole inferred language answer).prompt = clarifyPromptFor language ∧
      (profileKnown (pyLower (pyStrip answer)) = true →
        (cliResolveRole inferred language answer).role = pyLower (pyStrip answer)) ∧
      (profileKnown (pyLower (pyStrip answer)) = false →
        (cliResolveRole inferred language answer).role = "adult")) := by
  constructor
  · intro h
    simp [cliResolveRole, h]
  · intro h
    cases ha : profileKnown (pyLower (pyStrip answer)) with
    | true => simp [cliResolveRole, h, ha]
    | false => simp [cliResolveRole, h, ha]

/-- Witness for C6's amended statement: inference answered `unknown` in a
Romanian session, the user answers ` CHILD `; the localized question is asked
and the stripped, lower-cased answer is adopted. -/
theorem c6_witness :
    (cliResolveRole "unknown" "romanian" " CHILD ").asked = true ∧
    (cliResolveRole "unknown" "romanian" " CHILD ").prompt =
      clarifyPromptFor "romanian" ∧
    (cliResolveRole "unknown" "romanian" " CHILD ").role = "child" := by
  have h := (c6_cli_clarification "unknown" "romanian" " CHILD ").2 (by decide)
  refine ⟨h.1, h.2.1, ?_⟩
  exact (h.2.2.1 (by decide)).trans (by decide)

/-- Counterexample to C7: a connectivity failure of the underlying store is
swallowed inside `get_user_read_books` (which returns `[]`), so the request's
history step succeeds with empty personalization instead of propagating a
request failure. -/
theorem c7_counterexample :
    resolveHistory (Except.ok (get_user_read_books
        (Except.error DbFailure.connectivity))) =
      Except.ok ([], []) := rfl

/-- C7 (amended): at the API layer, KeyError/TypeError/ValueError from the
history-resolution step degrade to empty read/high-rated sets and any other
exception raised there would propagate; but `auth/service.py`'s
`get_user_read_books` catches every store failure and returns an empty list,
so no failure of the underlying store — connectivity included — ever reaches
the API layer as an exception. -/
theorem c7_history_error_handling (e : PyExc)
    (db : Except DbFailure (List DbRow)) :
    (isNarrowExc e = true →
      resolveHistory (Except.error e) = Except.ok ([], [])) ∧
    (isNarrowExc e = false →
      resolveHistory (Except.error e) = Except.error e) ∧
    (∀ f : DbFailure, db = Except.error f →
      resolveHistory (Except.ok (get_user_read_books db)) =
        Except.ok ([], [])) := by
  refine ⟨?_, ?_, ?_⟩
  · intro h
    simp [resolveHistory, h]
  · intro h
    simp [resolveHistory, h]
  · rintro f rfl
    rfl

/-- Witness for C7's amended statement at concrete inputs: a KeyError
degrades, a ConnectionError raised at the API layer would propagate, and a
store-level query failure degrades silently. -/
theorem c7_witness :
    resolveHistory (Except.error PyExc.keyError) = Except.ok ([], []) ∧
    resolveHistory (Except.error PyExc.connectionError) =
      Except.error PyExc.connectionError ∧
    resolveHistory (Except.ok (get_user_read_books
        (Except.error DbFailure.queryError))) = Except.ok ([], []) :=
  ⟨(c7_history_error_handling PyExc.keyError (Except.ok [])).1 rfl,
   (c7_history_error_handling PyExc.connectionError (Except.ok [])).2.1 rfl,
   (c7_history_error_handling PyExc.otherError
      (Except.error DbFailure.queryError)).2.2 DbFailure.queryError rfl⟩

/-- Counterexample to C8: when generation fails (returns `None`), nothing is
written back, so a second selection of the same title with no intervening
cache clear invokes the generator again — two invocations in total, refuting
"at most once". -/
theorem c8_counterexample :
    (resolveImage (Meta.only "Dune") (some "adult") "english" "Dune"
        "A desert epic." id id (fun _ _ => none)).genCalls +
      (resolveImage (metaAfterRequest (Meta.only "Dune")
          (resolveImage (Meta.only "Dune") (some "adult") "english" "Dune"
            "A desert epic." id id (fun _ _ => none)))
        (some "adult") "english" "Dune" "A desert epic." id id
        (fun _ _ => none)).genCalls = 2 := rfl

/-- C8 (amended): a selected book whose metadata holds a non-empty
`image_url` is served from the cache — no generation call, no write-back; and
whenever the first image step ends with a truthy URL (cached, or freshly
generated and hence written back), a second selection of the same title
performs no further generation call, so the two selections together call the
generator at most once.  (After a failed or empty generation nothing is
cached and the next selection generates again, as the counterexample
shows.) -/
theorem c8_image_cache_idempotence (meta : Meta) (role : Option String)
    (language title summary : String) (translate sanitize : String → String)
    (g1 g2 : String → String → Option String) :
    (pyTruthy meta.image_url = true →
      resolveImage meta role language title summary translate sanitize g1 =
        ⟨meta.image_url, 0, none⟩) ∧
    (pyTruthy (resolveImage meta role language title summary translate
        sanitize g1).image_url = true →
      (resolveImage meta role language title summary translate
          sanitize g1).genCalls +
        (resolveImage (metaAfterRequest meta
            (resolveImage meta role language title summary translate sanitize g1))
          role language title summary translate sanitize g2).genCalls ≤ 1) := by
  constructor
  · intro h
    simp [resolveImage, h]
  · intro h
    cases hcache : pyTruthy meta.image_url with
    | true =>
      simp [resolveImage, hcache, metaAfterRequest]
    | false =>
      simp only [resolveImage, hcache, Bool.false_eq_true, if_false] at h ⊢
      simp only [metaAfterRequest, h, if_true]
      simp [resolveImage, h]

/-- Witness for C8's amended statement: a cached URL is reused with no
generation call or write, and two selections with a succeeding generator call
it at most once in total. -/
theorem c8_witness :
    resolveImage ⟨"Dune", none, none, none, some "http://img/1.png"⟩
        (some "adult") "english" "Dune" "A desert epic." id id
        (fun _ _ => none) =
      ⟨some "http://img/1.png", 0, none⟩ ∧
    (resolveImage (Meta.only "Dune") (some "adult") "english" "Dune"
        "A desert epic." id id (fun _ _ => some "http://img/2.png")).genCalls +
      (resolveImage (metaAfterRequest (Meta.only "Dune")
          (resolveImage (Meta.only "Dune") (some "adult") "english" "Dune"
            "A desert epic." id id (fun _ _ => some "http://img/2.png")))
        (some "adult") "english" "Dune" "A desert epic." id id
        (fun _ _ => some "http://img/2.png")).genCalls ≤ 1 :=
  ⟨(c8_image_cache_idempotence ⟨"Dune", none, none, none, some "http://img/1.png"⟩
      (some "adult") "english" "Dune" "A desert epic." id id (fun _ _ => none)
      (fun _ _ => none)).1 rfl,
   (c8_image_cache_idempotence (Meta.only "Dune") (some "adult") "english"
      "Dune" "A desert epic." id id (fun _ _ => some "http://img/2.png")
      (fun _ _ => some "http://img/2.png")).2 (by decide)⟩

/-- C9: when the image API fails for the selected book (the generator wrapper
catches every exception and yields `None`), the recommendation is still
returned with the book's title and resolved summary, a `none` image URL, and
no metadata write-back. -/
theorem c9_image_failure_degrades (idx : Nat) (meta : Meta)
    (rest : List (Nat × Meta)) (batches : List BatchFile) (role : Option String)
    (language : String) (translate sanitize : String → String)
    (api : String → String → Except PyExc String) :
    (∀ a b, ∃ e, api a b = Except.error e) →
    summaryPasses batches role meta = true →
    pyTruthy meta.image_url = false →
    selectLoop ((idx, meta) :: rest) batches role language translate sanitize
        (fun a b => generate_image_from_summary (api a b)) =
      (RecResult.book meta.title (get_summary_by_title meta.title batches) none,
        []) := by
  intro hapi hpass hcache
  have hgen : ∀ a b, generate_image_from_summary (api a b) = none := by
    intro a b
    obtain ⟨e, he⟩ := hapi a b
    simp [generate_image_from_summary, he]
  simp only [selectLoop, if_pos hpass]
  simp [resolveImage, hcache, hgen, show pyTruthy none = false from rfl]

/-- Witness for C9: an always-failing image API still yields the selected
book with no image and no write-back. -/
theorem c9_witness :
    selectLoop [(0, Meta.only "Dune")] duneBatches (some "adult") "english"
        id id
        (fun _ _ => generate_image_from_summary
          (Except.error PyExc.otherError)) =
      (RecResult.book "Dune" "A desert epic." none, []) := by
  have h := c9_image_failure_degrades 0 (Meta.only "Dune") [] duneBatches
    (some "adult") "english" id id
    (fun _ _ => Except.error PyExc.otherError)
    (fun _ _ => ⟨PyExc.otherError, rfl⟩) (by decide) rfl
  exact h.trans (by decide)

/-- C10: `search_titles` returns, as `titles`, the window
`[offset, offset + limit)` of the ascending sort of exactly those catalog
titles that contain the query case-insensitively (so at most `limit` titles),
and reports as `total` the number of all matching titles, independent of the
pagination window. -/
theorem c10_search_titles_pagination (docs : List (Option (Option String)))
    (q : String) (limit offset : Nat) :
    ∃ full : List String,
      List.Sorted (fun a b => a ≤ b) full ∧
      full.Perm ((collect_titles docs).filter
        (fun t => strIn (pyLower q) (pyLower t))) ∧
      (search_titles docs q limit offset).titles =
        (full.drop offset).take limit ∧
      (search_titles docs q limit offset).total =
        ((collect_titles docs).filter
          (fun t => strIn (pyLower q) (pyLower t))).length ∧
      (search_titles docs q limit offset).titles.length ≤ limit ∧
      (∀ t, t ∈ full ↔
        (t ∈ collect_titles docs ∧ containsStr (pyLower t) (pyLower q))) := by
  refine ⟨List.insertionSort (fun a b => a ≤ b)
      ((collect_titles docs).filter (fun t => strIn (pyLower q) (pyLower t))),
    ?_, ?_, rfl, ?_, ?_, ?_⟩
  · exact List.sorted_insertionSort _ _
  · exact List.perm_insertionSort _ _
  · exact (List.perm_insertionSort _ _).length_eq
  · show (((List.insertionSort _ _).drop offset).take limit).length ≤ limit
    simp [List.length_take]
  · intro t
    rw [(List.perm_insertionSort _ _).mem_iff]
    simp [List.mem_filter, strIn_iff]
